import Mathlib

/-!
Verification of the pgtest repository (a disposable local PostgreSQL test
fixture) against its natural-language specification.

The development shallowly embeds the two Python source variants:
`src/pgtest/pgtest.py` (the packaged fixture controller) and `src/pgtest.py`
(the historical single-file variant).  Pure predicates become Lean functions;
the effectful lifecycle operations become explicit state passing over a small
file-system model, with exceptions as `Except` values.  Wall-clock time in the
readiness wait is discretised at the poll granularity: one tick = one
0.1-second sleep, so a `wait`-second window is `10 * wait` ticks.
-/

deriving instance DecidableEq for Except

namespace PgTest

/-- Model of a dynamically typed Python value, as far as the validators need:
`None`, `bool`, `int`, `str`, and a catch-all for every other object. -/
inductive PyVal where
  | none
  | bool (b : Bool)
  | int (n : Int)
  | str (s : String)
  | other
deriving DecidableEq, Repr

/-- Python truthiness, used by the `if arg:` tests in `PGTest.__init__`. -/
def truthy : PyVal → Bool
  | PyVal.none => false
  | PyVal.bool b => b
  | PyVal.int n => n != 0
  | PyVal.str s => s != ""
  | PyVal.other => true

/-- `isinstance(x, numbers.Integral)`: Python `bool` is a subtype of `int`. -/
def isIntegral : PyVal → Bool
  | PyVal.int _ => true
  | PyVal.bool _ => true
  | _ => false

/-- `isinstance(x, int)` with the integer value extracted; Python `bool`
is an `int` with value 0 or 1. -/
def pyIntValue : PyVal → Option Int
  | PyVal.int n => some n
  | PyVal.bool b => some (if b then 1 else 0)
  | _ => Option.none

/-- The exception values raised by the embedded code.  `timeout` embeds the
repository's own `TimeoutError` class (pgtest/pgtest.py line 51); the other
constructors embed the Python builtins the code raises. -/
inductive PGErr where
  | timeout (msg : String)
  | runtimeErr (msg : String)
  | ioErr (msg : String)
  | assertionErr (msg : String)
  | typeErr (msg : String)
  | fileNotFound (msg : String)
deriving DecidableEq, Repr

/-- `is_valid_port` (pgtest/pgtest.py lines 124-135): `False` for
non-`int` input, else the chained comparison `1024 < port < 65535`. -/
def is_valid_port (v : PyVal) : Bool :=
  match pyIntValue v with
  | some n => decide (1024 < n) && decide (n < 65535)
  | Option.none => false

/-- `is_valid_port` of the historical variant (src/pgtest.py lines 77-80):
raises `TypeError` for non-`int` input instead of returning `False`. -/
def is_valid_port_strict (v : PyVal) : Except PGErr Bool :=
  match pyIntValue v with
  | some n => Except.ok (decide (1024 < n) && decide (n < 65535))
  | Option.none => Except.error (PGErr.typeErr "Port must be of type int")

/-- `bind_unused_port` (pgtest/pgtest.py lines 138-156).  The operating
system's successive port assignments are the stream `osPorts`; the function
re-rolls (recursing on the next OS assignment) while the assigned port fails
`is_valid_port`.  Recursion depth is bounded by `fuel`; the Python code would
spin forever where this returns `Option.none`. -/
def bind_unused_port (osPorts : Nat → Int) : Nat → Nat → Option Int
  | _, 0 => Option.none
  | i, fuel + 1 =>
    if is_valid_port (PyVal.int (osPorts i)) then some (osPorts i)
    else bind_unused_port osPorts (i + 1) fuel

/-- The newline character, written out because Python's `$` anchor treats a
trailing newline specially. -/
def nlChar : Char := Char.ofNat 10

/-- The double-quote character, used when quoting SQL identifiers. -/
def dqChar : Char := Char.ofNat 34

/-- The single-quote character, used in SQL string literals. -/
def sqChar : Char := Char.ofNat 39

/-- The character class `[a-zA-Z_]` of the identifier pattern. -/
def isWordStart (c : Char) : Bool := c.isAlpha || c == '_'

/-- The character class `[a-zA-Z0-9_]` of the identifier pattern. -/
def isWordChar (c : Char) : Bool := c.isAlpha || c.isDigit || c == '_'

/-- The negative lookahead `(?!pg_)` anchored at position 0: succeeds to
block the match exactly when the first three characters are `p`, `g`, `_`. -/
def startsWithPg : List Char → Bool
  | a :: b :: c :: _ => a == 'p' && b == 'g' && c == '_'
  | _ => false

/-- Matching of `[a-zA-Z0-9_]*$` against the rest of the string, with
Python `re` semantics for `$`: it matches at the end of the string or just
before a newline that is the last character. -/
def matchTail : List Char → Bool
  | [] => true
  | [c] => c == nlChar || isWordChar c
  | c :: d :: rest => isWordChar c && matchTail (d :: rest)

/-- Matching of `[a-zA-Z_][a-zA-Z0-9_]*$` from position 0. -/
def matchBody : List Char → Bool
  | [] => false
  | c :: rest => isWordStart c && matchTail rest

/-- `re.match('^(?!pg_)[a-zA-Z_][a-zA-Z0-9_]*$', name)` viewed as a Boolean,
with Python's semantics for `$` (a single trailing newline is tolerated). -/
def pyReMatchL (l : List Char) : Bool := !startsWithPg l && matchBody l

/-- `is_valid_db_object_name` (pgtest/pgtest.py lines 159-173): `TypeError`
for non-string input, else the regular-expression match above. -/
def is_valid_db_object_name (v : PyVal) : Except PGErr Bool :=
  match v with
  | PyVal.str s => Except.ok (pyReMatchL s.data)
  | _ => Except.error (PGErr.typeErr "name must be a valid string")

/-- Modelled from the spec: anchored full-string matching of
`(?!pg_)[A-Za-z_][A-Za-z0-9_]*` as the spec's words describe it (every
character of the string inside the classes, no newline allowance). -/
def specMatchCore : List Char → Bool
  | [] => false
  | c :: rest => isWordStart c && rest.all isWordChar

/-- Modelled from the spec: the full spec-described validator on strings. -/
def specMatchL (l : List Char) : Bool := !startsWithPg l && specMatchCore l

/-- File-system footprint of one fixture: whether the base working
directory, the `data` cluster directory and the `tmp` socket directory
currently exist. -/
structure FS where
  baseDir : Bool
  dataDir : Bool
  tmpDir : Bool
deriving DecidableEq, Repr

/-- The file system after the base directory tree is removed. -/
def FS.removed : FS := ⟨false, false, false⟩

/-- `shutil.rmtree(base_dir, ignore_errors)`: removes the whole tree rooted
at the base directory; with `ignore_errors` a missing tree is silently
ignored, otherwise it raises. -/
def rmtree (ignoreErrors : Bool) (fs : FS) : Except PGErr FS :=
  if fs.baseDir then Except.ok FS.removed
  else if ignoreErrors then Except.ok fs
  else Except.error (PGErr.fileNotFound "No such file or directory")

/-- `PGTest._cleanup` (pgtest/pgtest.py lines 467-473): skipped entirely
under `no_cleanup`, else `shutil.rmtree(self._base_dir, ignore_errors=True)`. -/
def cleanup (noCleanup : Bool) (fs : FS) : Except PGErr FS :=
  if noCleanup then Except.ok fs else rmtree true fs

/-- The state transformer of `_cleanup` (it never raises, see
`cleanup_idempotent_tolerant`). -/
def cleanupFS (noCleanup : Bool) (fs : FS) : FS :=
  match cleanup noCleanup fs with
  | Except.ok f => f
  | Except.error _ => fs

/-- Runtime state of one fixture: its `no_cleanup` setting and the file
system. -/
structure St where
  noCleanup : Bool
  fs : FS
deriving DecidableEq, Repr

/-- One iteration step of `_wait_for_server_ready`'s loop.  `t` is the
current tick (one tick = one 0.1-second sleep) and the second argument the
remaining ticks until `endtime`: probe, and if the probe fails either time
out (no ticks left after sleeping) or sleep one tick and retry. -/
def waitAux (avail : Nat → Bool) : Nat → Nat → Except PGErr Unit
  | t, 0 =>
    if avail t then Except.ok ()
    else Except.error (PGErr.timeout "Server failed to start")
  | t, r + 1 =>
    if avail t then Except.ok () else waitAux avail (t + 1) r

/-- `PGTest._wait_for_server_ready` (pgtest/pgtest.py lines 534-544): poll
`_is_connection_available` every 0.1 seconds until success, timing out once
`wait` seconds (`10 * wait` ticks) have elapsed. -/
def waitForServerReady (avail : Nat → Bool) (wait : Nat) : Except PGErr Unit :=
  waitAux avail 0 (10 * wait)

/-- `PGTest._start_server` (pgtest/pgtest.py lines 418-443): spawn the
server (`spawn` is the outcome of the `Popen` call, which may itself raise),
wait up to 5 seconds for readiness, and on any exception run `_cleanup`
before re-raising. -/
def start_server (spawn : Except PGErr Unit) (avail : Nat → Bool) (st : St) :
    Except PGErr Unit × FS :=
  match spawn with
  | Except.error e => (Except.error e, cleanupFS st.noCleanup st.fs)
  | Except.ok _ =>
    match waitForServerReady avail 5 with
    | Except.ok _ => (Except.ok (), st.fs)
    | Except.error e => (Except.error e, cleanupFS st.noCleanup st.fs)

/-- The outcome of `_stop_server`: the shell command it built, the result,
and the file system afterwards. -/
structure StopResult where
  cmd : String
  result : Except PGErr Unit
  fs : FS
deriving DecidableEq, Repr

/-- `PGTest._stop_server` (pgtest/pgtest.py lines 445-459): run
`pg_ctl stop -m fast -D cluster`; a non-empty captured standard-error stream
raises `RuntimeError`, and the surrounding `except` clause runs `_cleanup`
before re-raising. -/
def stop_server (exe cluster errOutput : String) (st : St) : StopResult :=
  let cmd := String.singleton dqChar ++ exe ++ String.singleton dqChar ++
    " stop -m fast -D " ++ cluster
  if errOutput == "" then ⟨cmd, Except.ok (), st.fs⟩
  else ⟨cmd, Except.error (PGErr.runtimeErr errOutput), cleanupFS st.noCleanup st.fs⟩

/-- `PGTest.close` (pgtest/pgtest.py lines 461-465): `self._stop_server()`
then `self._cleanup()`; if stop raises, its exception propagates (stop's own
handler has already cleaned up). -/
def close (exe cluster errOutput : String) (st : St) : Except PGErr Unit × FS :=
  let sr := stop_server exe cluster errOutput st
  match sr.result with
  | Except.ok _ => (Except.ok (), cleanupFS st.noCleanup sr.fs)
  | Except.error e => (Except.error e, sr.fs)

/-- `PGTest.__exit__` (pgtest/pgtest.py lines 347-348): unconditionally
calls `self.close()`, ignoring the exception information. -/
def pgtestExit (excInfo : Option PGErr) (exe cluster errOutput : String) (st : St) :
    Except PGErr Unit × FS :=
  match excInfo with
  | _ => close exe cluster errOutput st

/-- Python `with` semantics for the fixture: run the caller's block, then
invoke `__exit__` on every exit path; the block's exception propagates
unless `__exit__` itself raised. -/
def withFixture {α : Type} (body : Except PGErr α) (exe cluster errOutput : String)
    (st : St) : Except PGErr α × FS :=
  let excInfo : Option PGErr :=
    match body with
    | Except.error e => some e
    | Except.ok _ => Option.none
  match pgtestExit excInfo exe cluster errOutput st with
  | (Except.ok _, fs) => (body, fs)
  | (Except.error e, fs) => (Except.error e, fs)

/-- The Python class tower relevant to the repository's exception types. -/
inductive PyClass where
  | baseException
  | exception
  | timeoutCls
  | runtimeCls
  | typeCls
  | assertionCls
deriving DecidableEq, Repr

/-- The declared direct base class of each class: the builtins, plus the
repository's `class TimeoutError(BaseException)` (pgtest/pgtest.py line 51). -/
def directBase : PyClass → Option PyClass
  | PyClass.baseException => Option.none
  | PyClass.exception => some PyClass.baseException
  | PyClass.timeoutCls => some PyClass.baseException
  | PyClass.runtimeCls => some PyClass.exception
  | PyClass.typeCls => some PyClass.exception
  | PyClass.assertionCls => some PyClass.exception

/-- The superclass chain of a class (the tower has depth at most 3). -/
def ancestorsAux : Nat → PyClass → List PyClass
  | 0, c => [c]
  | n + 1, c =>
    c :: (match directBase c with
          | some d => ancestorsAux n d
          | Option.none => [])

/-- All superclasses of a class, itself included. -/
def ancestors (c : PyClass) : List PyClass := ancestorsAux 4 c

/-- `issubclass(c, d)`. -/
def isSubclass (c d : PyClass) : Bool := (ancestors c).contains d

/-- Whether an `except` clause catches an exception of class `e`:
a bare `except:` (`Option.none`) catches everything, `except H:` catches
exactly the subclasses of `H`. -/
def caughtBy (handler : Option PyClass) (e : PyClass) : Bool :=
  match handler with
  | Option.none => true
  | some h => isSubclass e h

/-- The keyword arguments of `PGTest.__init__`, kept as dynamic values so
that wrongly typed arguments are representable. -/
structure InitConfig where
  username : PyVal
  port : PyVal
  log_file : PyVal
  no_cleanup : Bool
  copy_cluster : PyVal
  base_dir : PyVal
  pg_ctl : PyVal
  max_connections : PyVal
deriving DecidableEq, Repr

/-- The host environment `__init__` consults: path existence, cluster
validity (`is_valid_cluster_dir`), executable lookup (`which`, which may
raise `FileNotFoundError`, reported as the error string), the port the
allocator would return, and the name `tempfile.mkdtemp` would create. -/
structure Env where
  pathExists : String → Bool
  validClusterDir : String → Bool
  whichExe : String → Except String String
  freePort : Int
  mkdtempName : String

/-- The instance attributes `__init__` has bound once validation passed. -/
structure InitFields where
  database : String
  username : String
  pg_ctl_exe : String
  port : Int
  base_dir : String
  log_file : PyVal
  cluster : String
  listen_socket_dir : String
  no_cleanup : Bool
  max_connections : PyVal
deriving DecidableEq, Repr

def usernameMsg : String := "Username must contain only letters and/or numbers"

def execMsg : String := "Executable does not exist"

def dirNotExistMsg : String := "Directory does not exist"

def notClusterMsg : String := "Directory is not a cluster directory"

def portMsg : String := "Port is not between 1024 and 65535"

def maxConnMsg : String := "Maximum number of connections must be an integer."

def badPathTypeMsg : String := "argument should be a str"

/-- `__init__` lines 322-337: log file default, derived paths, and the
`max_connections` integrality assertion — note this assertion runs after the
base directory has been allocated.  The second component is the list of
directories created so far. -/
def initRest (cfg : InitConfig) (uname exe : String) (port : Int) (base : String)
    (created : List String) : Except PGErr InitFields × List String :=
  let logFile : PyVal :=
    if truthy cfg.log_file then cfg.log_file
    else PyVal.str (base ++ "/pgtest_log.txt")
  if !isIntegral cfg.max_connections then
    (Except.error (PGErr.assertionErr maxConnMsg), created)
  else
    (Except.ok
      ⟨"postgres", uname, exe, port, base, logFile, base ++ "/data",
        base ++ "/tmp", cfg.no_cleanup, cfg.max_connections⟩,
      created)

/-- `__init__` lines 315-320: `base_dir` must exist when supplied; when
omitted, `tempfile.mkdtemp()` creates a fresh temporary directory (a
file-system side effect). -/
def initBaseDir (cfg : InitConfig) (env : Env) (uname exe : String) (port : Int) :
    Except PGErr InitFields × List String :=
  if truthy cfg.base_dir then
    match cfg.base_dir with
    | PyVal.str b =>
      if !env.pathExists b then (Except.error (PGErr.assertionErr dirNotExistMsg), [])
      else initRest cfg uname exe port b []
    | _ => (Except.error (PGErr.typeErr badPathTypeMsg), [])
  else initRest cfg uname exe port env.mkdtempName [env.mkdtempName]

/-- `__init__` lines 308-313: a supplied (truthy) `port` must satisfy
`is_valid_port`; otherwise the Port Allocator supplies one. -/
def initPort (cfg : InitConfig) (env : Env) (uname exe : String) :
    Except PGErr InitFields × List String :=
  if truthy cfg.port then
    if is_valid_port cfg.port then
      initBaseDir cfg env uname exe ((pyIntValue cfg.port).getD 0)
    else (Except.error (PGErr.assertionErr portMsg), [])
  else initBaseDir cfg env uname exe env.freePort

/-- `__init__` lines 300-306: a supplied `copy_cluster` must exist and be a
valid cluster directory. -/
def initCopyCluster (cfg : InitConfig) (env : Env) (uname exe : String) :
    Except PGErr InitFields × List String :=
  if truthy cfg.copy_cluster then
    match cfg.copy_cluster with
    | PyVal.str c =>
      if !env.pathExists c then (Except.error (PGErr.assertionErr dirNotExistMsg), [])
      else if !env.validClusterDir c then
        (Except.error (PGErr.assertionErr notClusterMsg), [])
      else initPort cfg env uname exe
    | _ => (Except.error (PGErr.typeErr badPathTypeMsg), [])
  else initPort cfg env uname exe

/-- `__init__` lines 293-298: a supplied `pg_ctl` path must exist, then
`which` resolves it; with none supplied, `which('pg_ctl')` is used. -/
def initPgCtl (cfg : InitConfig) (env : Env) (uname : String) :
    Except PGErr InitFields × List String :=
  if truthy cfg.pg_ctl then
    match cfg.pg_ctl with
    | PyVal.str p =>
      if !env.pathExists p then (Except.error (PGErr.assertionErr execMsg), [])
      else
        match env.whichExe p with
        | Except.error m => (Except.error (PGErr.fileNotFound m), [])
        | Except.ok exe => initCopyCluster cfg env uname exe
    | _ => (Except.error (PGErr.typeErr badPathTypeMsg), [])
  else
    match env.whichExe "pg_ctl" with
    | Except.error m => (Except.error (PGErr.fileNotFound m), [])
    | Except.ok exe => initCopyCluster cfg env uname exe

/-- `PGTest.__init__` lines 287-337: the validation-and-binding phase,
before `_create_dirs` runs.  Starts with the username assertion via
`is_valid_db_object_name`. -/
def initPhase1 (cfg : InitConfig) (env : Env) : Except PGErr InitFields × List String :=
  match cfg.username with
  | PyVal.str uname =>
    if !pyReMatchL uname.data then
      (Except.error (PGErr.assertionErr usernameMsg), [])
    else initPgCtl cfg env uname
  | _ => (Except.error (PGErr.typeErr "name must be a valid string"), [])

/-- `PGTest._create_dirs` (lines 501-511): `os.makedirs` for each of the
base, cluster and socket directories that does not yet exist.  Returns the
updated created-directory list. -/
def createDirsList (env : Env) (f : InitFields) (created : List String) : List String :=
  let step := fun (ds : List String) (p : String) =>
    if env.pathExists p || ds.contains p then ds else ds ++ [p]
  step (step (step created f.base_dir) f.cluster) f.listen_socket_dir

/-- `PGTest.__init__` through `_create_dirs` (lines 284-339): validation and
attribute binding, then directory creation.  (The later phases
`_init_base_dir`, `_set_dir_permissions` and `_start_server` only run after
every validation check has passed.)  The second component lists every
directory created on the file system. -/
def pgtestInit (cfg : InitConfig) (env : Env) : Except PGErr InitFields × List String :=
  match initPhase1 cfg env with
  | (Except.error e, ds) => (Except.error e, ds)
  | (Except.ok f, ds) => (Except.ok f, createDirsList env f ds)

/-- The existence-count query of `_create_database` (src/pgtest.py 329-330). -/
def countQuery (db : String) : String :=
  "SELECT COUNT(*) FROM pg_database WHERE datname=" ++
    String.singleton sqChar ++ db ++ String.singleton sqChar

/-- The creation statement of `_create_database` (src/pgtest.py line 332):
the identifier is double-quoted. -/
def createQuery (db : String) : String :=
  "CREATE DATABASE " ++ String.singleton dqChar ++ db ++ String.singleton dqChar

/-- What `_create_database` did: which database the administrative
connection was opened to, its autocommit setting, and the SQL statements
executed in order. -/
structure CreateDbTrace where
  connDatabase : String
  autocommit : Bool
  statements : List String
deriving DecidableEq, Repr

/-- `PGTest._create_database` (src/pgtest.py lines 325-333): connect to the
administrative `postgres` database with autocommit on, count existing
databases of the configured name, and issue the quoted `CREATE DATABASE`
only when the count is zero. -/
def create_database (existingDbs : List String) (database : String) : CreateDbTrace :=
  let cnt : Nat := existingDbs.count database
  ⟨"postgres", true,
    [countQuery database] ++ (if cnt ≤ 0 then [createQuery database] else [])⟩

/-- `PGTest.start_server` of the historical variant (src/pgtest.py lines
224-245): spawn, wait up to 10 seconds for readiness (cleanup on failure),
then `_create_database`onto the running server. -/
def start_server_old (spawn : Except PGErr Unit) (avail : Nat → Bool)
    (existingDbs : List String) (database : String) (st : St) :
    Except PGErr CreateDbTrace × FS :=
  match spawn with
  | Except.error e => (Except.error e, cleanupFS st.noCleanup st.fs)
  | Except.ok _ =>
    match waitForServerReady avail 10 with
    | Except.error e => (Except.error e, cleanupFS st.noCleanup st.fs)
    | Except.ok _ => (Except.ok (create_database existingDbs database), st.fs)

/-- A fully concrete benign environment for evaluation. -/
def envDemo : Env :=
  ⟨fun _ => true, fun _ => true, fun _ => Except.ok "/usr/bin/pg_ctl", 5433,
    "/tmp/tmpdemo"⟩

/-- A configuration whose only invalid entry is a non-integer
`max_connections`, with `base_dir` omitted. -/
def cfgBadMaxConn : InitConfig :=
  ⟨PyVal.str "postgres", PyVal.int 5433, PyVal.none, false, PyVal.none,
    PyVal.none, PyVal.none, PyVal.str "eleven"⟩

/-- Claim C7: every integer strictly between 1024 and 65535 is a valid port;
every integer at or outside those bounds is not; non-integer input is
rejected — the packaged `is_valid_port` returns `false`, the stricter
historical variant raises `TypeError`. -/
theorem valid_port_characterisation :
    (∀ n : Int, 1024 < n → n < 65535 → is_valid_port (PyVal.int n) = true) ∧
    (∀ n : Int, n ≤ 1024 ∨ 65535 ≤ n → is_valid_port (PyVal.int n) = false) ∧
    is_valid_port (PyVal.int 1024) = false ∧
    is_valid_port (PyVal.int 65535) = false ∧
    (∀ s : String, is_valid_port (PyVal.str s) = false) ∧
    is_valid_port PyVal.none = false ∧
    is_valid_port PyVal.other = false ∧
    (∀ s : String, is_valid_port_strict (PyVal.str s) =
      Except.error (PGErr.typeErr "Port must be of type int")) ∧
    is_valid_port_strict PyVal.none =
      Except.error (PGErr.typeErr "Port must be of type int") ∧
    is_valid_port_strict PyVal.other =
      Except.error (PGErr.typeErr "Port must be of type int") := by
  refine ⟨?_, ?_, by decide, by decide, ?_, by decide, by decide, ?_, by decide, by decide⟩
  · intro n h1 h2
    simp [is_valid_port, pyIntValue, h1, h2]
  · intro n h
    rcases h with h | h
    · simp [is_valid_port, pyIntValue]
      intro hc
      omega
    · simp [is_valid_port, pyIntValue]
      intro hc
      omega
  · intro s
    rfl
  · intro s
    rfl

/-- Claim C7 witness: a concrete in-range port is accepted and a concrete
out-of-range one rejected. -/
theorem valid_port_characterisation_witness :
    is_valid_port (PyVal.int 8080) = true ∧ is_valid_port (PyVal.int 70000) = false :=
  ⟨valid_port_characterisation.1 8080 (by decide) (by decide),
    valid_port_characterisation.2.1 70000 (Or.inr (by decide))⟩

/-- Claim C4: `_cleanup` is skipped under `no_cleanup`; otherwise it removes
the whole base-directory tree; it never raises (in particular not when the
directory is already missing); and it is idempotent. -/
theorem cleanup_idempotent_tolerant :
    (∀ fs : FS, cleanup true fs = Except.ok fs) ∧
    (∀ fs : FS, fs.baseDir = true → cleanup false fs = Except.ok FS.removed) ∧
    (∀ fs : FS, fs.baseDir = false → cleanup false fs = Except.ok fs) ∧
    (∀ (nc : Bool) (fs : FS), ∃ fs2 : FS, cleanup nc fs = Except.ok fs2) ∧
    (∀ (nc : Bool) (fs fs2 : FS),
      cleanup nc fs = Except.ok fs2 → cleanup nc fs2 = Except.ok fs2) := by
  refine ⟨fun fs => rfl, ?_, ?_, ?_, ?_⟩
  · intro fs h
    simp [cleanup, rmtree, h]
  · intro fs h
    simp [cleanup, rmtree, h]
  · intro nc fs
    cases nc with
    | true => exact ⟨fs, rfl⟩
    | false =>
      by_cases h : fs.baseDir = true
      · exact ⟨FS.removed, by simp [cleanup, rmtree, h]⟩
      · exact ⟨fs, by simp [cleanup, rmtree, h]⟩
  · intro nc fs fs2 h
    cases nc with
    | true =>
      simp [cleanup] at h
      simp [cleanup, h]
    | false =>
      by_cases hb : fs.baseDir = true
      · simp [cleanup, rmtree, hb] at h
        simp [cleanup, rmtree, ← h, FS.removed]
      · simp [cleanup, rmtree, hb] at h
        simp only [Bool.not_eq_true] at hb
        simp [cleanup, rmtree, ← h, hb]

/-- Claim C4 witness: concrete runs of `_cleanup` discharging each
hypothesis — an existing tree is removed, a missing tree raises nothing,
and a second run is a fixed point. -/
theorem cleanup_idempotent_tolerant_witness :
    cleanup true ⟨true, true, true⟩ = Except.ok ⟨true, true, true⟩ ∧
    cleanup false ⟨true, true, true⟩ = Except.ok FS.removed ∧
    cleanup false ⟨false, false, false⟩ = Except.ok ⟨false, false, false⟩ ∧
    cleanup false FS.removed = Except.ok FS.removed :=
  ⟨cleanup_idempotent_tolerant.1 ⟨true, true, true⟩,
    cleanup_idempotent_tolerant.2.1 ⟨true, true, true⟩ rfl,
    cleanup_idempotent_tolerant.2.2.1 ⟨false, false, false⟩ rfl,
    cleanup_idempotent_tolerant.2.2.2.2 false ⟨true, true, true⟩ FS.removed
      (cleanup_idempotent_tolerant.2.1 ⟨true, true, true⟩ rfl)⟩

/-- Claim C5: `_stop_server` builds the fast-shutdown stop command against
the data directory; an empty captured standard-error stream means success
with the file system untouched, a non-empty one raises `RuntimeError` after
running `_cleanup`. -/
theorem stop_server_stderr_behaviour :
    (∀ (exe cluster : String) (st : St),
      stop_server exe cluster "" st =
        ⟨String.singleton dqChar ++ exe ++ String.singleton dqChar ++
          " stop -m fast -D " ++ cluster, Except.ok (), st.fs⟩) ∧
    (∀ (exe cluster errOutput : String) (st : St), errOutput ≠ "" →
      stop_server exe cluster errOutput st =
        ⟨String.singleton dqChar ++ exe ++ String.singleton dqChar ++
          " stop -m fast -D " ++ cluster,
          Except.error (PGErr.runtimeErr errOutput),
          cleanupFS st.noCleanup st.fs⟩) := by
  constructor
  · intro exe cluster st
    rfl
  · intro exe cluster errOutput st h
    simp [stop_server, h]

/-- Claim C5 witness: a concrete non-empty error stream raises and cleans
up; a concrete empty one succeeds. -/
theorem stop_server_stderr_behaviour_witness :
    stop_server "pg_ctl" "/tmp/base/data" "boom" ⟨false, ⟨true, true, true⟩⟩ =
      ⟨String.singleton dqChar ++ "pg_ctl" ++ String.singleton dqChar ++
        " stop -m fast -D " ++ "/tmp/base/data",
        Except.error (PGErr.runtimeErr "boom"), cleanupFS false ⟨true, true, true⟩⟩ ∧
    stop_server "pg_ctl" "/tmp/base/data" "" ⟨false, ⟨true, true, true⟩⟩ =
      ⟨String.singleton dqChar ++ "pg_ctl" ++ String.singleton dqChar ++
        " stop -m fast -D " ++ "/tmp/base/data", Except.ok (), ⟨true, true, true⟩⟩ :=
  ⟨stop_server_stderr_behaviour.2 "pg_ctl" "/tmp/base/data" "boom"
      ⟨false, ⟨true, true, true⟩⟩ (by decide),
    stop_server_stderr_behaviour.1 "pg_ctl" "/tmp/base/data"
      ⟨false, ⟨true, true, true⟩⟩⟩

/-- Claim C9: whenever `bind_unused_port` returns a port, that port
satisfies `is_valid_port` — the loop re-rolls on every OS-assigned port that
fails the predicate. -/
theorem bind_unused_port_valid :
    ∀ (osPorts : Nat → Int) (i fuel : Nat) (p : Int),
      bind_unused_port osPorts i fuel = some p →
      is_valid_port (PyVal.int p) = true := by
  intro osPorts i fuel
  induction fuel generalizing i with
  | zero =>
    intro p h
    exact absurd h (by simp [bind_unused_port])
  | succ n ih =>
    intro p h
    rw [bind_unused_port] at h
    by_cases hv : is_valid_port (PyVal.int (osPorts i)) = true
    · rw [if_pos hv] at h
      cases h
      exact hv
    · rw [if_neg hv] at h
      exact ih (i + 1) p h

/-- Claim C9 witness: with an OS that assigns port 5000, the allocator
returns it and it is valid. -/
theorem bind_unused_port_valid_witness :
    bind_unused_port (fun _ => 5000) 0 1 = some 5000 ∧
    is_valid_port (PyVal.int 5000) = true :=
  ⟨by decide, bind_unused_port_valid (fun _ => 5000) 0 1 5000 (by decide)⟩

/-- Claim C10: the repository's `TimeoutError` derives directly from
`BaseException` and not from `Exception`, so `except Exception:` does not
catch it while a bare `except:` does — and `_start_server`'s bare except
still runs `_cleanup` on a timeout before the error propagates. -/
theorem timeout_error_hierarchy :
    directBase PyClass.timeoutCls = some PyClass.baseException ∧
    isSubclass PyClass.timeoutCls PyClass.baseException = true ∧
    isSubclass PyClass.timeoutCls PyClass.exception = false ∧
    caughtBy Option.none PyClass.timeoutCls = true ∧
    caughtBy (some PyClass.exception) PyClass.timeoutCls = false ∧
    (∀ st : St, start_server (Except.ok ()) (fun _ => false) st =
      (Except.error (PGErr.timeout "Server failed to start"),
        cleanupFS st.noCleanup st.fs)) := by
  refine ⟨rfl, by decide, by decide, rfl, by decide, ?_⟩
  intro st
  rfl

/-- Claim C3: `close` is `stop` followed by `cleanup` in both outcomes,
`__exit__` invokes `close` whatever exception information it is handed, and
under `with`-statement semantics the teardown file-system effect of `close`
happens on every exit path, the caller's block raising included. -/
theorem close_composition_and_scoped :
    (∀ (exe cluster : String) (st : St),
      close exe cluster "" st = (Except.ok (), cleanupFS st.noCleanup st.fs)) ∧
    (∀ (exe cluster errOutput : String) (st : St), errOutput ≠ "" →
      close exe cluster errOutput st =
        (Except.error (PGErr.runtimeErr errOutput), cleanupFS st.noCleanup st.fs)) ∧
    (∀ (excInfo : Option PGErr) (exe cluster errOutput : String) (st : St),
      pgtestExit excInfo exe cluster errOutput st = close exe cluster errOutput st) ∧
    (∀ (exe cluster errOutput : String) (st : St),
      (withFixture (Except.ok ()) exe cluster errOutput st).2 =
        (close exe cluster errOutput st).2) ∧
    (∀ (e : PGErr) (exe cluster errOutput : String) (st : St),
      (withFixture (Except.error e : Except PGErr Unit) exe cluster errOutput st).2 =
        (close exe cluster errOutput st).2) := by
  refine ⟨?_, ?_, ?_, ?_, ?_⟩
  · intro exe cluster st
    rfl
  · intro exe cluster errOutput st h
    simp [close, stop_server, h]
  · intro excInfo exe cluster errOutput st
    rfl
  · intro exe cluster errOutput st
    simp only [withFixture, pgtestExit]
    rcases hc : close exe cluster errOutput st with ⟨r, fs⟩
    cases r <;> rfl
  · intro e exe cluster errOutput st
    simp only [withFixture, pgtestExit]
    rcases hc : close exe cluster errOutput st with ⟨r, fs⟩
    cases r <;> rfl

/-- Claim C3 witness: concrete teardown runs — a clean stop composes stop
with cleanup, a failing stop propagates after cleanup, and the scoped form
tears down even when the caller's block raised. -/
theorem close_composition_and_scoped_witness :
    close "pg_ctl" "/tmp/base/data" "" ⟨false, ⟨true, true, true⟩⟩ =
      (Except.ok (), cleanupFS false ⟨true, true, true⟩) ∧
    close "pg_ctl" "/tmp/base/data" "oops" ⟨false, ⟨true, true, true⟩⟩ =
      (Except.error (PGErr.runtimeErr "oops"), cleanupFS false ⟨true, true, true⟩) ∧
    (withFixture (Except.error (PGErr.runtimeErr "user code failed") :
        Except PGErr Unit) "pg_ctl" "/tmp/base/data" "" ⟨false, ⟨true, true, true⟩⟩).2 =
      (close "pg_ctl" "/tmp/base/data" "" ⟨false, ⟨true, true, true⟩⟩).2 :=
  ⟨close_composition_and_scoped.1 "pg_ctl" "/tmp/base/data" ⟨false, ⟨true, true, true⟩⟩,
    close_composition_and_scoped.2.1 "pg_ctl" "/tmp/base/data" "oops"
      ⟨false, ⟨true, true, true⟩⟩ (by decide),
    close_composition_and_scoped.2.2.2.2 (PGErr.runtimeErr "user code failed")
      "pg_ctl" "/tmp/base/data" "" ⟨false, ⟨true, true, true⟩⟩⟩

/-- If the probe fails at every tick of the window starting at `t`, the
readiness loop times out. -/
theorem waitAux_timeout (avail : Nat → Bool) :
    ∀ (r t : Nat), (∀ u, u ≤ t + r → avail u = false) →
      waitAux avail t r = Except.error (PGErr.timeout "Server failed to start") := by
  intro r
  induction r with
  | zero =>
    intro t h
    simp [waitAux, h t (by omega)]
  | succ n ih =>
    intro t h
    rw [waitAux, if_neg (by simp [h t (by omega)])]
    exact ih (t + 1) (fun u hu => h u (by omega))

/-- Claim C1: if no trial connection succeeds at any 0.1-second poll inside
the 5-second window, `_start_server` raises the dedicated `TimeoutError`
(a constructor distinct from the generic initialization-failure errors) with
`_cleanup` already applied to the file system; and any other exception
raised inside `_start_server`'s try block likewise propagates only after
`_cleanup` ran. -/
theorem start_timeout_cleanup :
    ∀ (avail : Nat → Bool) (st : St),
      (∀ t, t ≤ 50 → avail t = false) →
      start_server (Except.ok ()) avail st =
        (Except.error (PGErr.timeout "Server failed to start"),
          cleanupFS st.noCleanup st.fs) ∧
      (∀ m m2 : String, PGErr.timeout m ≠ PGErr.ioErr m2 ∧
        PGErr.timeout m ≠ PGErr.assertionErr m2 ∧
        PGErr.timeout m ≠ PGErr.runtimeErr m2 ∧
        PGErr.timeout m ≠ PGErr.fileNotFound m2) ∧
      (∀ (e : PGErr) (st2 : St),
        start_server (Except.error e) avail st2 =
          (Except.error e, cleanupFS st2.noCleanup st2.fs)) := by
  intro avail st h
  refine ⟨?_, ?_, fun e st2 => rfl⟩
  · have hw : waitForServerReady avail 5 =
        Except.error (PGErr.timeout "Server failed to start") :=
      waitAux_timeout avail 50 0 (fun u hu => h u (by omega))
    simp [start_server, hw]
  · intro m m2
    refine ⟨?_, ?_, ?_, ?_⟩ <;> intro hc <;> cases hc

/-- Claim C1 witness: with a probe that never succeeds, a concrete start
times out with the dedicated error and the directories removed. -/
theorem start_timeout_cleanup_witness :
    start_server (Except.ok ()) (fun _ => false) ⟨false, ⟨true, true, true⟩⟩ =
      (Except.error (PGErr.timeout "Server failed to start"),
        cleanupFS false ⟨true, true, true⟩) :=
  (start_timeout_cleanup (fun _ => false) ⟨false, ⟨true, true, true⟩⟩
    (fun _ _ => rfl)).1

/-- Claim C6: `_create_database` (historical variant) runs only after the
readiness wait succeeded, opens its one administrative connection to the
`postgres` database with autocommit on, and follows the
check-for-pre-existence-first policy: the double-quoted `CREATE DATABASE`
statement is issued exactly when no database of that name exists. -/
theorem create_database_policy :
    (∀ (existing : List String) (db : String),
      (create_database existing db).connDatabase = "postgres" ∧
      (create_database existing db).autocommit = true) ∧
    (∀ (existing : List String) (db : String), db ∈ existing →
      (create_database existing db).statements = [countQuery db]) ∧
    (∀ (existing : List String) (db : String), db ∉ existing →
      (create_database existing db).statements = [countQuery db, createQuery db]) ∧
    (∀ db : String, createQuery db =
      "CREATE DATABASE " ++ String.singleton dqChar ++ db ++ String.singleton dqChar) ∧
    (∀ (avail : Nat → Bool) (existing : List String) (db : String) (st : St),
      waitForServerReady avail 10 = Except.ok () →
      start_server_old (Except.ok ()) avail existing db st =
        (Except.ok (create_database existing db), st.fs)) ∧
    (∀ (avail : Nat → Bool) (e : PGErr) (existing : List String) (db : String) (st : St),
      waitForServerReady avail 10 = Except.error e →
      start_server_old (Except.ok ()) avail existing db st =
        (Except.error e, cleanupFS st.noCleanup st.fs)) := by
  refine ⟨fun existing db => ⟨rfl, rfl⟩, ?_, ?_, fun db => rfl, ?_, ?_⟩
  · intro existing db h
    have hc : existing.count db ≠ 0 := by
      simpa [List.count_eq_zero] using h
    simp [create_database, hc]
  · intro existing db h
    have hc : existing.count db = 0 := List.count_eq_zero.mpr h
    simp [create_database, hc]
  · intro avail existing db st h
    simp [start_server_old, h]
  · intro avail e existing db st h
    simp [start_server_old, h]

/-- Claim C6 witness: concretely, a pre-existing database is only counted,
an absent one is counted and then created with a quoted identifier, and
both start outcomes behave as stated. -/
theorem create_database_policy_witness :
    (create_database ["postgres"] "postgres").statements = [countQuery "postgres"] ∧
    (create_database ["postgres"] "mydb").statements =
      [countQuery "mydb", createQuery "mydb"] ∧
    start_server_old (Except.ok ()) (fun _ => true) ["postgres"] "mydb"
        ⟨false, ⟨true, true, true⟩⟩ =
      (Except.ok (create_database ["postgres"] "mydb"), (⟨true, true, true⟩ : FS)) ∧
    start_server_old (Except.ok ()) (fun _ => false) ["postgres"] "mydb"
        ⟨false, ⟨true, true, true⟩⟩ =
      (Except.error (PGErr.timeout "Server failed to start"),
        cleanupFS false ⟨true, true, true⟩) :=
  ⟨create_database_policy.2.1 ["postgres"] "postgres" (by decide),
    create_database_policy.2.2.1 ["postgres"] "mydb" (by decide),
    create_database_policy.2.2.2.2.1 (fun _ => true) ["postgres"] "mydb"
      ⟨false, ⟨true, true, true⟩⟩ (by decide),
    create_database_policy.2.2.2.2.2 (fun _ => false)
      (PGErr.timeout "Server failed to start") ["postgres"] "mydb"
      ⟨false, ⟨true, true, true⟩⟩ (by decide)⟩

/-- The star-then-dollar part of the pattern accepts a list exactly when
every character is in the class, or the last character is a newline and
every character before it is in the class. -/
theorem matchTail_eq (l : List Char) :
    matchTail l = (l.all isWordChar ||
      (decide (l.getLast? = some nlChar) && l.dropLast.all isWordChar)) := by
  induction l with
  | nil => simp [matchTail]
  | cons c rest ih =>
    cases rest with
    | nil =>
      by_cases h : c = nlChar
      · subst h
        decide
      · simp [matchTail, List.getLast?, h]
    | cons d rest2 =>
      rw [matchTail, ih, List.getLast?_cons_cons, List.dropLast_cons₂]
      cases hc : isWordChar c <;> simp [hc]

/-- The body of the pattern accepts a list exactly when the spec's anchored
reading accepts it, or it ends in a newline and the spec's reading accepts
everything before that newline. -/
theorem matchBody_eq (l : List Char) :
    matchBody l = (specMatchCore l ||
      (decide (l.getLast? = some nlChar) && specMatchCore l.dropLast)) := by
  cases l with
  | nil => simp [matchBody, specMatchCore]
  | cons c rest =>
    cases rest with
    | nil =>
      cases hc : isWordStart c <;>
        simp [matchBody, matchTail, specMatchCore, hc, List.getLast?]
    | cons d rest2 =>
      rw [matchBody, matchTail_eq, List.getLast?_cons_cons, List.dropLast_cons₂]
      cases hc : isWordStart c <;> simp [specMatchCore, hc]

/-- Dropping a trailing newline does not change whether the string starts
with the reserved `pg_` prefix. -/
theorem startsWithPg_dropLast (l : List Char) (h : l.getLast? = some nlChar) :
    startsWithPg l.dropLast = startsWithPg l := by
  match l with
  | [] => rfl
  | [a] =>
    simp [List.getLast?] at h
    subst h
    rfl
  | [a, b] => rfl
  | [a, b, c] =>
    rw [List.getLast?_cons_cons] at h
    simp [List.getLast?] at h
    subst h
    have : (nlChar == '_') = false := by decide
    simp [startsWithPg, this]
  | a :: b :: c :: d :: rest =>
    rfl

/-- `re.match` of the source pattern accepts exactly the spec-described
strings plus those same strings with one extra trailing newline. -/
theorem pyReMatchL_characterise (l : List Char) :
    pyReMatchL l = (specMatchL l ||
      (decide (l.getLast? = some nlChar) && specMatchL l.dropLast)) := by
  by_cases h : l.getLast? = some nlChar
  · have hsw := startsWithPg_dropLast l h
    rw [pyReMatchL, matchBody_eq, specMatchL, specMatchL, hsw, h]
    cases hp : startsWithPg l <;> simp [hp, Bool.and_or_distrib_left]
  · rw [pyReMatchL, matchBody_eq, specMatchL]
    simp [h]

/-- Claim C8 counterexample: the claim says the validator returns `false`
for every string containing a character outside `[A-Za-z0-9_]`, but the
string `"abc"` followed by a newline contains a newline (outside the class,
so the spec-described anchored match rejects it) yet the validator returns
`true`, because Python's `$` tolerates one trailing newline. -/
theorem name_validator_trailing_newline_counterexample :
    is_valid_db_object_name (PyVal.str ("abc".push nlChar)) = Except.ok true ∧
    specMatchL ("abc".push nlChar).data = false ∧
    ("abc".push nlChar).data.all isWordChar = false := by
  refine ⟨?_, by decide, by decide⟩
  decide

/-- Claim C8 (amended): the validator raises `TypeError` for every
non-string input; on strings it returns `true` exactly for the strings the
claim's pattern accepts under an anchored reading, plus those same strings
extended by a single trailing newline (Python `$` semantics); in particular
it still returns `false` for the empty string, strings starting with a
digit, strings starting with `pg_`, and strings with a forbidden
non-trailing-newline character. -/
theorem name_validator_characterisation :
    (∀ n : Int, is_valid_db_object_name (PyVal.int n) =
      Except.error (PGErr.typeErr "name must be a valid string")) ∧
    (∀ b : Bool, is_valid_db_object_name (PyVal.bool b) =
      Except.error (PGErr.typeErr "name must be a valid string")) ∧
    is_valid_db_object_name PyVal.none =
      Except.error (PGErr.typeErr "name must be a valid string") ∧
    is_valid_db_object_name PyVal.other =
      Except.error (PGErr.typeErr "name must be a valid string") ∧
    (∀ s : String, is_valid_db_object_name (PyVal.str s) =
      Except.ok (specMatchL s.data ||
        (decide (s.data.getLast? = some nlChar) && specMatchL s.data.dropLast))) := by
  refine ⟨fun n => rfl, fun b => rfl, rfl, rfl, ?_⟩
  intro s
  rw [is_valid_db_object_name, pyReMatchL_characterise]

/-- Closed form of `initRest`: succeed or raise the `max_connections`
assertion, in either case leaving the created-directory list as handed in. -/
theorem initRest_eq (cfg : InitConfig) (uname exe : String) (port : Int)
    (base : String) (created : List String) :
    initRest cfg uname exe port base created =
      if isIntegral cfg.max_connections then
        (Except.ok ⟨"postgres", uname, exe, port, base,
          (if truthy cfg.log_file then cfg.log_file
            else PyVal.str (base ++ "/pgtest_log.txt")),
          base ++ "/data", base ++ "/tmp", cfg.no_cleanup, cfg.max_connections⟩,
          created)
      else (Except.error (PGErr.assertionErr maxConnMsg), created) := by
  by_cases h : isIntegral cfg.max_connections = true <;> simp [initRest, h]

/-- A failure in `initBaseDir` either happened before any directory was
created, or is the late `max_connections` assertion with the fresh temporary
base directory already on disk. -/
theorem initBaseDir_error (cfg : InitConfig) (env : Env) (uname exe : String)
    (port : Int) (e : PGErr) :
    (initBaseDir cfg env uname exe port).1 = Except.error e →
    (initBaseDir cfg env uname exe port).2 = [] ∨
      (truthy cfg.base_dir = false ∧ isIntegral cfg.max_connections = false ∧
        e = PGErr.assertionErr maxConnMsg ∧
        (initBaseDir cfg env uname exe port).2 = [env.mkdtempName]) := by
  unfold initBaseDir
  by_cases ht : truthy cfg.base_dir = true
  · simp only [ht, if_true]
    intro he
    left
    cases hb : cfg.base_dir with
    | str b =>
      by_cases hex : env.pathExists b = true
      · by_cases hi : isIntegral cfg.max_connections = true <;>
          simp [hex, hi, initRest_eq] at he ⊢
      · simp [hex]
    | none => rfl
    | bool b => rfl
    | int n => rfl
    | other => rfl
  · rw [if_neg ht, initRest_eq]
    by_cases hi : isIntegral cfg.max_connections = true
    · simp [hi]
    · simp only [Bool.not_eq_true] at ht hi
      simp [hi, ht]
      exact fun h2 => h2.symm

/-- A failure in `initPort` is either the port assertion (no side effect
yet) or comes from `initBaseDir`. -/
theorem initPort_error (cfg : InitConfig) (env : Env) (uname exe : String)
    (e : PGErr) :
    (initPort cfg env uname exe).1 = Except.error e →
    (initPort cfg env uname exe).2 = [] ∨
      (truthy cfg.base_dir = false ∧ isIntegral cfg.max_connections = false ∧
        e = PGErr.assertionErr maxConnMsg ∧
        (initPort cfg env uname exe).2 = [env.mkdtempName]) := by
  unfold initPort
  by_cases tp : truthy cfg.port = true
  · simp only [tp, if_true]
    by_cases vp : is_valid_port cfg.port = true
    · simp only [vp, if_true]
      exact initBaseDir_error cfg env uname exe _ e
    · simp [vp]
  · rw [if_neg tp]
    exact initBaseDir_error cfg env uname exe _ e

/-- A failure in `initCopyCluster` is either one of the copy-cluster
assertions (no side effect yet) or comes from the later steps. -/
theorem initCopyCluster_error (cfg : InitConfig) (env : Env) (uname exe : String)
    (e : PGErr) :
    (initCopyCluster cfg env uname exe).1 = Except.error e →
    (initCopyCluster cfg env uname exe).2 = [] ∨
      (truthy cfg.base_dir = false ∧ isIntegral cfg.max_connections = false ∧
        e = PGErr.assertionErr maxConnMsg ∧
        (initCopyCluster cfg env uname exe).2 = [env.mkdtempName]) := by
  unfold initCopyCluster
  by_cases tc : truthy cfg.copy_cluster = true
  · simp only [tc, if_true]
    cases hb : cfg.copy_cluster with
    | str c =>
      by_cases hex : env.pathExists c = true
      · by_cases hv : env.validClusterDir c = true
        · simp only [hex, hv, Bool.not_true, Bool.false_eq_true, if_false]
          exact initPort_error cfg env uname exe e
        · simp [hex, hv]
      · simp [hex]
    | none => simp
    | bool b => simp
    | int n => simp
    | other => simp
  · rw [if_neg tc]
    exact initPort_error cfg env uname exe e

/-- A failure in `initPgCtl` is either the executable assertion or a
`which` discovery failure (no side effect yet), or comes from later steps. -/
theorem initPgCtl_error (cfg : InitConfig) (env : Env) (uname : String)
    (e : PGErr) :
    (initPgCtl cfg env uname).1 = Except.error e →
    (initPgCtl cfg env uname).2 = [] ∨
      (truthy cfg.base_dir = false ∧ isIntegral cfg.max_connections = false ∧
        e = PGErr.assertionErr maxConnMsg ∧
        (initPgCtl cfg env uname).2 = [env.mkdtempName]) := by
  unfold initPgCtl
  by_cases tp : truthy cfg.pg_ctl = true
  · simp only [tp, if_true]
    cases hb : cfg.pg_ctl with
    | str p =>
      by_cases hex : env.pathExists p = true
      · simp only [hex, Bool.not_true, Bool.false_eq_true, if_false]
        cases hw : env.whichExe p with
        | error m => simp
        | ok exe => exact initCopyCluster_error cfg env uname exe e
      · simp [hex]
    | none => simp
    | bool b => simp
    | int n => simp
    | other => simp
  · rw [if_neg tp]
    cases hw : env.whichExe "pg_ctl" with
    | error m => simp
    | ok exe => exact initCopyCluster_error cfg env uname exe e

/-- A failure anywhere in the validation phase of `__init__` either
precedes every file-system effect or is the late `max_connections`
assertion with the temporary base directory already created. -/
theorem initPhase1_error (cfg : InitConfig) (env : Env) (e : PGErr) :
    (initPhase1 cfg env).1 = Except.error e →
    (initPhase1 cfg env).2 = [] ∨
      (truthy cfg.base_dir = false ∧ isIntegral cfg.max_connections = false ∧
        e = PGErr.assertionErr maxConnMsg ∧
        (initPhase1 cfg env).2 = [env.mkdtempName]) := by
  unfold initPhase1
  cases hb : cfg.username with
  | str uname =>
    by_cases hm : pyReMatchL uname.data = true
    · simp only [hm, Bool.not_true, Bool.false_eq_true, if_false]
      exact initPgCtl_error cfg env uname e
    · simp [hm]
  | none => simp
  | bool b => simp
  | int n => simp
  | other => simp

/-- Claim C2 (amended): construction raises a descriptive error for every
failed validation check, and every check except the `max_connections`
integrality check runs before any file-system effect; the
`max_connections` check alone runs after the base directory has been
allocated, so when `base_dir` was omitted and `max_connections` is not an
integer, the freshly created temporary directory is the one and only
file-system change left behind by the failed construction. -/
theorem init_validation_before_side_effects :
    ∀ (cfg : InitConfig) (env : Env) (e : PGErr),
      (pgtestInit cfg env).1 = Except.error e →
      (pgtestInit cfg env).2 = [] ∨
      (truthy cfg.base_dir = false ∧ isIntegral cfg.max_connections = false ∧
        e = PGErr.assertionErr maxConnMsg ∧
        (pgtestInit cfg env).2 = [env.mkdtempName]) := by
  intro cfg env e
  rcases hp : initPhase1 cfg env with ⟨r, ds⟩
  cases r with
  | ok f => simp [pgtestInit, hp]
  | error e2 =>
    have hq : pgtestInit cfg env = (Except.error e2, ds) := by
      simp [pgtestInit, hp]
    rw [hq]
    intro he
    have he2 : e2 = e := by
      simpa using he
    subst he2
    have := initPhase1_error cfg env e2
    rw [hp] at this
    simpa using this rfl

/-- Claim C2 counterexample: the configuration `cfgBadMaxConn` fails only
the `max_connections` validation check (its value is the string `"eleven"`),
yet construction creates the temporary base directory before raising, so a
validation failure is not free of file-system side effects as claimed. -/
theorem init_validation_side_effect_counterexample :
    (pgtestInit cfgBadMaxConn envDemo).1 =
      Except.error (PGErr.assertionErr maxConnMsg) ∧
    (pgtestInit cfgBadMaxConn envDemo).2 = ["/tmp/tmpdemo"] ∧
    (pgtestInit cfgBadMaxConn envDemo).2 ≠ [] := by
  refine ⟨?_, ?_, ?_⟩ <;> decide

/-- Claim C2 witness: the amended theorem applied to the concrete failing
configuration, landing in the max-connections disjunct. -/
theorem init_validation_before_side_effects_witness :
    (pgtestInit cfgBadMaxConn envDemo).2 = [] ∨
      (truthy cfgBadMaxConn.base_dir = false ∧
        isIntegral cfgBadMaxConn.max_connections = false ∧
        PGErr.assertionErr maxConnMsg = PGErr.assertionErr maxConnMsg ∧
        (pgtestInit cfgBadMaxConn envDemo).2 = [envDemo.mkdtempName]) :=
  init_validation_before_side_effects cfgBadMaxConn envDemo
    (PGErr.assertionErr maxConnMsg) (by decide)

end PgTest
